import Mathlib

/-!
Verification of the natural-language-to-SQL query pipeline in
`skills/query-agent/scripts/query_agent.py`.

The Python functions are shallowly embedded as pure Lean functions.  External
effects (the database backend, the language-model endpoint, the storage sink,
wall-clock time) are modelled as explicit inputs: the backend is a function
from the executed SQL text to its reply, and the language-model replies are
plain strings that the pipeline parses exactly as the source does.  All string
processing is done over `List Char` so that every definition evaluates inside
the kernel; Python's ASCII-only behaviour on the inputs of interest is
preserved (`str.upper`, `str.strip`, substring membership via `in`, etc.).
-/

namespace QueryAgent

/-! ## String primitives mirroring the Python operations used by the source -/

/-- Whether `needle` is a prefix of `haystack` (on character lists). -/
def isPrefixL : List Char → List Char → Bool
  | [], _ => true
  | _ :: _, [] => false
  | a :: as, b :: bs => a == b && isPrefixL as bs

/-- Substring containment on character lists: Python's `needle in haystack`. -/
def containsSub (haystack needle : List Char) : Bool :=
  match haystack with
  | [] => needle.isEmpty
  | _ :: t => isPrefixL needle haystack || containsSub t needle

/-- Python's `needle in haystack` on strings. -/
def pyIn (needle haystack : String) : Bool :=
  containsSub haystack.data needle.data

/-- Python's `str.upper()` (ASCII, which is all the source ever feeds it). -/
def strUpper (s : String) : String := String.mk (s.data.map Char.toUpper)

/-- Python's whitespace set for `str.strip()` with no arguments. -/
def pyIsSpace (c : Char) : Bool :=
  c == ' ' || c == '\t' || c == '\n' || c == '\r' || c == '\x0b' || c == '\x0c'

/-- Python's `str.strip()`: drop whitespace from both ends. -/
def pyStrip (s : String) : String :=
  String.mk (((s.data.dropWhile pyIsSpace).reverse.dropWhile pyIsSpace).reverse)

/-- Python's `str.startswith(pre)`. -/
def pyStartsWith (s pre : String) : Bool := isPrefixL pre.data s.data

/-- Python's `str.rstrip(";")`: drop trailing semicolons (and only semicolons). -/
def rstripSemicolons (s : String) : String :=
  String.mk ((s.data.reverse.dropWhile (· == ';')).reverse)

/-- Python's `s[:n]` for `n ≥ 0`. -/
def pyTake (n : Nat) (s : String) : String := String.mk (s.data.take n)

/-- Truthiness of an optional string (`None` and `""` are falsy in Python). -/
def truthyStr : Option String → Bool
  | none => false
  | some s => !s.data.isEmpty

/-! ## Data model (`discover_schema` output, `validate_sql` output) -/

/-- One column of a discovered table (query_agent.py, discover_schema). -/
structure Column where
  name : String
  type : String
  nullable : Bool
deriving Repr, DecidableEq

/-- One discovered table. -/
structure Table where
  name : String
  description : String
  columns : List Column
deriving Repr, DecidableEq

/-- The schema dict returned by `discover_schema`. -/
structure Schema where
  database : String
  db_type : String
  tables : List Table
deriving Repr, DecidableEq

/-- The dict returned by `validate_sql`: `{"valid": bool, "errors": list}`. -/
structure ValidationResult where
  valid : Bool
  errors : List String
deriving Repr, DecidableEq

/-! ## SQL validation (query_agent.py lines 392–437) -/

/-- query_agent.py lines 392–395. -/
def DISALLOWED_KEYWORDS : List String :=
  ["INSERT", "UPDATE", "DELETE", "DROP", "CREATE", "ALTER", "TRUNCATE",
   "GRANT", "REVOKE", "EXEC", "EXECUTE", "SP_", "XP_", "SCRIPT"]

/-- query_agent.py lines 397–401 (referenced by the source; unused by `validate_sql`). -/
def ALLOWED_FUNCTIONS : List String :=
  ["SUM", "AVG", "COUNT", "MAX", "MIN", "ROUND", "UPPER", "LOWER",
   "DATE_TRUNC", "EXTRACT", "ABS", "CEIL", "FLOOR", "COALESCE", "NULLIF",
   "LENGTH", "TRIM", "SUBSTRING", "CONCAT", "CAST", "TO_CHAR", "TO_DATE"]

/-- The function `validate_sql(sql, schema)` (query_agent.py lines 404–437).
Errors are accumulated in source order: first one entry per disallowed keyword
found as a substring of the uppercased SQL, then the SELECT-prefix check, then
the LIMIT-presence check.  The `table_names` binding is computed and, as in the
source, never used. -/
def validate_sql (sql : String) (schema : Schema) : ValidationResult :=
  let sql_upper := strUpper sql
  let kwErrors := DISALLOWED_KEYWORDS.filterMap fun keyword =>
    if pyIn keyword sql_upper then some ("Disallowed keyword: " ++ keyword) else none
  let selErrors := if !(pyStartsWith (strUpper (pyStrip sql)) "SELECT")
    then ["Query must start with SELECT"] else []
  let limErrors := if !(pyIn "LIMIT" sql_upper)
    then ["Query should include LIMIT clause"] else []
  let table_names := schema.tables.map fun t => strUpper t.name
  let _ := table_names
  let errors := kwErrors ++ selErrors ++ limErrors
  { valid := errors.isEmpty, errors := errors }

/-! ## Lexical tokens (used to state what the substring check is *not*) -/

/-- A SQL word character: letter, digit or underscore. -/
def isWordChar (c : Char) : Bool := c.isAlphanum || c == '_'

/-- Split a character list into maximal runs of word characters. -/
def tokensAux : List Char → List Char → List String
  | [], cur => if cur.isEmpty then [] else [String.mk cur.reverse]
  | c :: rest, cur =>
    if isWordChar c then tokensAux rest (c :: cur)
    else if cur.isEmpty then tokensAux rest []
    else String.mk cur.reverse :: tokensAux rest []

/-- The lexical tokens of a SQL string. -/
def tokens (s : String) : List String := tokensAux s.data []

/-- A token hits the denylist: it equals a denylisted keyword, or carries a
stored-procedure prefix (`SP_`, `XP_`). -/
def tokenInDenylist (t : String) : Bool :=
  DISALLOWED_KEYWORDS.contains t || pyStartsWith t "SP_" || pyStartsWith t "XP_"

/-- A small concrete schema used to instantiate schema-polymorphic theorems. -/
def exampleSchema : Schema :=
  { database := "default", db_type := "postgresql",
    tables := [{ name := "t", description := "Table t",
                 columns := [{ name := "created_at", type := "timestamp", nullable := true }] }] }

/-! ## JSON values and the behaviour of `json.loads` on them

`generate_sql` (lines 374–385) and `summarize_results` (lines 573–588) both
parse the model's completion text with `json.loads`, falling back to a
brace-delimited span when direct parsing fails.  The parser below follows the
JSON grammar as Python's `json` module accepts it (RFC 8259 plus the
`NaN`/`Infinity` constants), on `List Char` with explicit fuel. -/

/-- A parsed JSON value.  Numbers keep their raw lexeme: the pipeline never
computes with them. -/
inductive Json where
  | null
  | bool (b : Bool)
  | num (raw : String)
  | str (s : String)
  | arr (items : List Json)
  | obj (fields : List (String × Json))
deriving Repr

/-- JSON insignificant whitespace. -/
def jsonWs (c : Char) : Bool := c == ' ' || c == '\t' || c == '\n' || c == '\r'

def skipWs : List Char → List Char
  | [] => []
  | c :: rest => if jsonWs c then skipWs rest else c :: rest

def hexVal (c : Char) : Option Nat :=
  if '0' ≤ c ∧ c ≤ '9' then some (c.toNat - '0'.toNat)
  else if 'a' ≤ c ∧ c ≤ 'f' then some (c.toNat - 'a'.toNat + 10)
  else if 'A' ≤ c ∧ c ≤ 'F' then some (c.toNat - 'A'.toNat + 10)
  else none

/-- Parse the remainder of a JSON string (the opening quote already
consumed), handling the escape sequences `json.loads` accepts and rejecting
raw control characters. -/
def parseStringBody (acc : List Char) : List Char → Option (String × List Char)
  | [] => none
  | c :: rest =>
    if c == '"' then some (String.mk acc.reverse, rest)
    else if c == '\\' then
      match rest with
      | [] => none
      | e :: rest' =>
        if e == '"' then parseStringBody ('"' :: acc) rest'
        else if e == '\\' then parseStringBody ('\\' :: acc) rest'
        else if e == '/' then parseStringBody ('/' :: acc) rest'
        else if e == 'b' then parseStringBody ('\x08' :: acc) rest'
        else if e == 'f' then parseStringBody ('\x0c' :: acc) rest'
        else if e == 'n' then parseStringBody ('\n' :: acc) rest'
        else if e == 'r' then parseStringBody ('\r' :: acc) rest'
        else if e == 't' then parseStringBody ('\t' :: acc) rest'
        else if e == 'u' then
          match rest' with
          | h1 :: h2 :: h3 :: h4 :: rest'' =>
            match hexVal h1, hexVal h2, hexVal h3, hexVal h4 with
            | some a, some b, some c', some d =>
              parseStringBody (Char.ofNat (((a * 16 + b) * 16 + c') * 16 + d) :: acc) rest''
            | _, _, _, _ => none
          | _ => none
        else none
    else if c.toNat < 0x20 then none
    else parseStringBody (c :: acc) rest

def spanDigits (cs : List Char) : List Char × List Char :=
  (cs.takeWhile Char.isDigit, cs.dropWhile Char.isDigit)

/-- JSON integer part: a single `0`, or a nonzero digit followed by digits. -/
def parseIntPart : List Char → Option (List Char × List Char)
  | [] => none
  | c :: rest =>
    if c == '0' then some (['0'], rest)
    else if c.isDigit then
      let (ds, r) := spanDigits rest
      some (c :: ds, r)
    else none

/-- JSON fraction part; a malformed one is left unconsumed (the stray input
then fails the parse exactly as it does in Python). -/
def parseFracPart (cs : List Char) : List Char × List Char :=
  match cs with
  | '.' :: rest =>
    let (ds, r) := spanDigits rest
    if ds.isEmpty then ([], cs) else ('.' :: ds, r)
  | _ => ([], cs)

/-- JSON exponent part, same convention as `parseFracPart`. -/
def parseExpPart (cs : List Char) : List Char × List Char :=
  match cs with
  | e :: rest =>
    if e == 'e' || e == 'E' then
      let (sgn, rest₂) := match rest with
        | s :: r => if s == '+' || s == '-' then (([s] : List Char), r) else (([] : List Char), rest)
        | [] => (([] : List Char), rest)
      let (ds, r) := spanDigits rest₂
      if ds.isEmpty then ([], cs) else (e :: (sgn ++ ds), r)
    else ([], cs)
  | [] => ([], cs)

def parseNumber (cs : List Char) : Option (String × List Char) :=
  let (sign, cs₁) :=
    match cs with
    | '-' :: rest => ((['-'] : List Char), rest)
    | _ => (([] : List Char), cs)
  match parseIntPart cs₁ with
  | none => none
  | some (ip, cs₂) =>
    let (fp, cs₃) := parseFracPart cs₂
    let (ep, cs₄) := parseExpPart cs₃
    some (String.mk (sign ++ ip ++ fp ++ ep), cs₄)

/-- Parser mode: a plain value, or the tail of an object/array being built. -/
inductive PMode where
  | value
  | members (acc : List (String × Json))
  | items (acc : List Json)

/-- The recursive JSON scanner, fuelled.  `.members`/`.items` continue an
object or array whose opening bracket (and any following whitespace) has been
consumed. -/
def parseJ : Nat → PMode → List Char → Option (Json × List Char)
  | 0, _, _ => none
  | Nat.succ fuel, .value, cs =>
    match cs with
    | [] => none
    | c :: rest =>
      if c == '{' then
        match skipWs rest with
        | '}' :: r => some (.obj [], r)
        | cs₁ => parseJ fuel (.members []) cs₁
      else if c == '[' then
        match skipWs rest with
        | ']' :: r => some (.arr [], r)
        | cs₁ => parseJ fuel (.items []) cs₁
      else if c == '"' then
        (parseStringBody [] rest).map fun p => (.str p.1, p.2)
      else if isPrefixL "true".data cs then some (.bool true, cs.drop 4)
      else if isPrefixL "false".data cs then some (.bool false, cs.drop 5)
      else if isPrefixL "null".data cs then some (.null, cs.drop 4)
      else if isPrefixL "NaN".data cs then some (.num "NaN", cs.drop 3)
      else if isPrefixL "Infinity".data cs then some (.num "Infinity", cs.drop 8)
      else if isPrefixL "-Infinity".data cs then some (.num "-Infinity", cs.drop 9)
      else (parseNumber cs).map fun p => (.num p.1, p.2)
  | Nat.succ fuel, .members acc, cs =>
    match cs with
    | '"' :: rest =>
      match parseStringBody [] rest with
      | none => none
      | some (key, cs₁) =>
        match skipWs cs₁ with
        | ':' :: cs₂ =>
          match parseJ fuel .value (skipWs cs₂) with
          | none => none
          | some (v, cs₃) =>
            match skipWs cs₃ with
            | ',' :: cs₄ => parseJ fuel (.members (acc ++ [(key, v)])) (skipWs cs₄)
            | '}' :: cs₄ => some (.obj (acc ++ [(key, v)]), cs₄)
            | _ => none
        | _ => none
    | _ => none
  | Nat.succ fuel, .items acc, cs =>
    match parseJ fuel .value cs with
    | none => none
    | some (v, cs₁) =>
      match skipWs cs₁ with
      | ',' :: cs₂ => parseJ fuel (.items (acc ++ [v])) (skipWs cs₂)
      | ']' :: cs₂ => some (.arr (acc ++ [v]), cs₂)
      | _ => none

/-- Python's `json.loads`: skip surrounding whitespace, parse one value, demand full
consumption; `none` is a raised `json.JSONDecodeError`. -/
def json_loads (s : String) : Option Json :=
  let cs := skipWs s.data
  match parseJ (cs.length + 1) .value cs with
  | some (j, rest) => if (skipWs rest).isEmpty then some j else none
  | none => none

/-! ## Brace-span extraction (the regex fallback of lines 378–380 and 578–580) -/

/-- Index of the last occurrence of `c` in `cs`. -/
def lastIdxOf (c : Char) (cs : List Char) : Option Nat :=
  match List.findIdx? (· == c) cs.reverse with
  | some k => some (cs.length - 1 - k)
  | none => none

/-- The span matched by `re.search` of an opening brace, a greedy dot-all
gap, and a closing brace: from the first opening brace to the last closing
brace, when the latter comes after the former. -/
def extractBraceSpan (cs : List Char) : Option (List Char) :=
  match List.findIdx? (· == '{') cs, lastIdxOf '}' cs with
  | some i, some j => if i < j then some ((cs.drop i).take (j - i + 1)) else none
  | _, _ => none

/-- Modelled from the spec: "extract the first balanced brace-delimited
substring" (§4.2) — scan to the first opening brace and stop where the brace
nesting returns to zero.  The source has no such function; this is the
spec-side notion compared against `extractBraceSpan`. -/
def balancedAux : List Char → Nat → List Char → Option (List Char)
  | [], _, _ => none
  | c :: rest, depth, acc =>
    if c == '{' then balancedAux rest (depth + 1) (c :: acc)
    else if c == '}' then
      if depth == 1 then some (c :: acc).reverse
      else balancedAux rest (depth - 1) (c :: acc)
    else balancedAux rest depth (c :: acc)

/-- First balanced brace-delimited substring of a string (spec-side). -/
def firstBalancedBrace (s : String) : Option String :=
  (balancedAux (s.data.dropWhile (· ≠ '{')) 0 []).map String.mk

/-! ## Reply parsing as `generate_sql` and `summarize_results` do it -/

/-- How a reply-parsing attempt fails: the explicit `ValueError` raised at
line 382, or a `json.JSONDecodeError` escaping from line 380 / line 580. -/
inductive ParseFailure where
  | generationParseError (msg : String)
  | jsonDecodeError
deriving Repr, DecidableEq

/-- The reply-parsing step of `generate_sql` (lines 374–382): direct
`json.loads`; on failure extract the brace span and parse that; raise
`ValueError` only when no span exists. -/
def generate_sql_parse (content : String) : Except ParseFailure Json :=
  match json_loads content with
  | some result => .ok result
  | none =>
    match extractBraceSpan content.data with
    | some grp =>
      match json_loads (String.mk grp) with
      | some result => .ok result
      | none => .error .jsonDecodeError
    | none => .error (.generationParseError
        ("Could not parse SQL generation response: " ++ pyTake 200 content))

/-- The fixed fallback summary of lines 582–586. -/
def fallbackSummary : Json :=
  .obj [("summary", .str "Query executed successfully"),
        ("key_findings", .arr []),
        ("data_quality_notes", .arr [])]

/-- The reply-parsing step of `summarize_results` (lines 575–588): as in
`generate_sql`, but the no-span branch returns the fixed fallback instead of
raising. -/
def summarize_results_parse (content : String) : Except ParseFailure Json :=
  match json_loads content with
  | some result => .ok result
  | none =>
    match extractBraceSpan content.data with
    | some grp =>
      match json_loads (String.mk grp) with
      | some result => .ok result
      | none => .error .jsonDecodeError
    | none => .ok fallbackSummary

/-! ## Query execution (lines 444–497) -/

/-- A database cell value.  Floats are outside the model; the pipeline never
computes with cell values, it only renders them. -/
inductive Value where
  | null
  | str (s : String)
  | int (n : Int)
  | bool (b : Bool)
deriving Repr, DecidableEq

/-- Python's `str(...)` on a cell value. -/
def pyStr : Value → String
  | .null => "None"
  | .str s => s
  | .int n => toString n
  | .bool b => if b then "True" else "False"

/-- The dict `execute_query` returns. -/
structure QueryResult where
  columns : List String
  rows : List (List (String × Value))
  row_count : Nat
  execution_time_ms : Int
deriving Repr, DecidableEq

/-- The database cursor, abstracted: maps the executed SQL text to the column
names of `cursor.description` and the row tuples of `cursor.fetchall()`. -/
abbrev Backend := String → List String × List (List Value)

/-- Lines 461–464: append a `LIMIT max_rows` clause (after stripping trailing
semicolons) when the uppercased SQL does not contain the substring `LIMIT`. -/
def addLimit (sql : String) (max_rows : Nat) : String :=
  if pyIn "LIMIT" (strUpper sql) then sql
  else rstripSemicolons sql ++ " LIMIT " ++ toString max_rows

/-- The SQL has a `LIMIT` clause at the lexical level: some token of the
uppercased text is the word `LIMIT` (spec-side notion of "has a limiting
clause", compared against the substring test of `addLimit`). -/
def hasLimitToken (sql : String) : Bool :=
  (tokens (strUpper sql)).contains "LIMIT"

/-- The function `execute_query(sql, database, max_rows)` (lines 444–497): add the LIMIT
clause if absent, send the statement, keep at most `max_rows` of the fetched
rows, pair each kept row with the column names (`dict(zip(columns, row))`),
and report `row_count` as the length of that list.  `elapsed_ms` is the
wall-clock measurement, an external input. -/
def execute_query (sql : String) (backend : Backend) (max_rows : Nat)
    (elapsed_ms : Int) : QueryResult :=
  let sqlFinal := addLimit sql max_rows
  let resp := backend sqlFinal
  let columns := resp.1
  let rows := resp.2
  let result_rows := (rows.take max_rows).map fun row => List.zip columns row
  { columns := columns, rows := result_rows, row_count := result_rows.length,
    execution_time_ms := elapsed_ms }

/-! ## Dict access on parsed JSON (the pipeline's `summary.get(...)` calls) -/

/-- Python's `dict.get(key)` on a parsed JSON object (`None` when absent; the replies
the pipeline feeds here are objects). -/
def jsonGet (j : Json) (key : String) : Option Json :=
  match j with
  | .obj fields => (fields.find? fun kv => kv.1 == key).map (·.2)
  | _ => none

/-- Python's `dict.get(key, default)`. -/
def jsonGetD (j : Json) (key : String) (d : Json) : Json := (jsonGet j key).getD d

/-- Python truthiness of a JSON value (a number is truthy when its mantissa
has a nonzero digit). -/
def jsonTruthy : Json → Bool
  | .null => false
  | .bool b => b
  | .str s => !s.data.isEmpty
  | .num raw =>
    (raw.data.takeWhile fun c => !(c == 'e') && !(c == 'E')).any
      fun c => decide ('1' ≤ c ∧ c ≤ '9')
  | .arr items => !items.isEmpty
  | .obj fields => !fields.isEmpty

/-- Truthiness of a `dict.get(key)` result. -/
def jsonTruthyOpt : Option Json → Bool
  | none => false
  | some j => jsonTruthy j

/-- Iterating a JSON list value. -/
def jsonItems : Json → List Json
  | .arr items => items
  | _ => []

/-- The text Python assigns from a JSON leaf (the pipeline only ever reaches
this with strings). -/
def jsonText : Json → String
  | .str s => s
  | .num raw => raw
  | .bool b => if b then "True" else "False"
  | .null => "None"
  | _ => ""

/-! ## XML export (lines 595–652) -/

/-- An element-tree node (`xml.etree.ElementTree.Element`): tag, attributes,
text content, children. -/
inductive XmlElem where
  | mk (tag : String) (attrs : List (String × String)) (text : Option String)
      (children : List XmlElem)
deriving Repr

def XmlElem.tag : XmlElem → String
  | .mk t _ _ _ => t

def XmlElem.attrs : XmlElem → List (String × String)
  | .mk _ a _ _ => a

def XmlElem.text : XmlElem → Option String
  | .mk _ _ t _ => t

def XmlElem.children : XmlElem → List XmlElem
  | .mk _ _ _ c => c

/-- Lines 643–648: the text of one row cell — `row.get(col, "")`, with `None`
replaced by the empty string, rendered with `str`. -/
def rowValText (row : List (String × Value)) (col : String) : String :=
  let val := ((row.find? fun kv => kv.1 == col).map (·.2)).getD (.str "")
  let val := if val == Value.null then Value.str "" else val
  pyStr val

/-- Lines 641–648: one `row` element, one child element per result column. -/
def rowToElem (columns : List String) (row : List (String × Value)) : XmlElem :=
  .mk "row" [] none (columns.map fun col => .mk col [] (some (rowValText row col)) [])

/-- The function `results_to_xml(question, sql, results, summary)` (lines 595–652), up to
the final `ET.tostring` serialization (external to the model): the function
builds the element tree.  `generated_at` stands for
`datetime.utcnow().isoformat() + "Z"`. -/
def results_to_xml (question sql : String) (results : QueryResult)
    (summary : Json) (generated_at : String) : XmlElem :=
  let metadataChildren :=
    [XmlElem.mk "query" [] (some question) [],
     XmlElem.mk "sql" [] (some sql) [],
     XmlElem.mk "generatedAt" [] (some generated_at) [],
     XmlElem.mk "rowCount" [] (some (toString results.row_count)) [],
     XmlElem.mk "executionTimeMs" [] (some (toString results.execution_time_ms)) []]
    ++ (if jsonTruthyOpt (jsonGet summary "summary") then
          [XmlElem.mk "summary" [] (some (jsonText (jsonGetD summary "summary" .null))) []]
        else [])
    ++ (if jsonTruthyOpt (jsonGet summary "key_findings") then
          [XmlElem.mk "keyFindings" [] none
            ((jsonItems (jsonGetD summary "key_findings" .null)).map fun f =>
              XmlElem.mk "finding" [] (some (jsonText f)) [])]
        else [])
    ++ (if jsonTruthyOpt (jsonGet summary "data_quality_notes") then
          [XmlElem.mk "dataQualityNotes" [] none
            ((jsonItems (jsonGetD summary "data_quality_notes" .null)).map fun n =>
              XmlElem.mk "note" [] (some (jsonText n)) [])]
        else [])
  let metadata := XmlElem.mk "metadata" [] none metadataChildren
  let schemaElem := XmlElem.mk "schema" [] none
    (results.columns.map fun col =>
      XmlElem.mk "column" [("name", col), ("type", "string")] none [])
  let rowsElem := XmlElem.mk "rows" [] none
    (results.rows.map (rowToElem results.columns))
  XmlElem.mk "queryResult" [] none [metadata, schemaElem, rowsElem]

/-- Locate a direct child element by tag (the parse-back direction). -/
def findChild (x : XmlElem) (tag : String) : Option XmlElem :=
  x.children.find? fun c => c.tag == tag

/-- Read the exported column names back out of the document's schema
section. -/
def xmlColumnNames (x : XmlElem) : List String :=
  ((findChild x "schema").map fun s =>
    s.children.filterMap fun c =>
      (c.attrs.find? fun a => a.1 == "name").map (·.2)).getD []

/-- The row elements of the document's rows section. -/
def xmlRowElems (x : XmlElem) : List XmlElem :=
  ((findChild x "rows").map XmlElem.children).getD []

/-! ## The pipeline (`query`, lines 807–897) -/

/-- The parsed reply of `generate_sql` as `query` consumes it.  `confidence` is
kept in raw textual form: the pipeline only passes it through. -/
structure GenResult where
  sql : Option String := none
  reasoning : Option String := none
  confidence : Option String := none
  error : Option String := none

/-- The dict every `_save_*` backend returns. -/
structure StorageResult where
  path : String
  url : String
  storage_type : String
deriving Repr, DecidableEq

/-- The effectful collaborators of one `query(...)` run, reified as data. -/
structure PipelineEnv where
  database : String
  db_type : String
  /-- the tables the schema source yields, before filtering -/
  sourceTables : List Table
  /-- the parsed reply of `generate_sql` -/
  gen : GenResult
  /-- the database cursor -/
  backend : Backend
  /-- wall-clock execution time reported for the query -/
  elapsed_ms : Int
  /-- the summarizer endpoint's raw completion text -/
  summaryReply : String
  /-- the export timestamp `datetime.utcnow().isoformat() + "Z"` -/
  generated_at : String
  /-- the timestamp used in the default filename -/
  timestamp : String
  /-- the function `save_to_storage`, abstracted over the configured backend -/
  storage : String → StorageResult

/-- The function `discover_schema(database, table_filter)` (lines 145–255): the tables the
source yields, restricted to `table_filter` when that is truthy (`None` and
the empty list leave the list unchanged, as `if table_filter:` does); filter
names not present in the source simply drop out of the intersection. -/
def discover_schema (env : PipelineEnv) (table_filter : Option (List String)) : Schema :=
  let all_tables := env.sourceTables
  let filtered := match table_filter with
    | none => all_tables
    | some [] => all_tables
    | some fs => all_tables.filter fun t => fs.contains t.name
  { database := env.database, db_type := env.db_type, tables := filtered }

/-- The dict `query(...)` returns: `success` plus whichever keys the branch
taken populates. -/
structure QueryReturn where
  success : Bool
  error : Option String := none
  reasoning : Option String := none
  confidence : Option String := none
  sql : Option String := none
  row_count : Option Nat := none
  columns : Option (List String) := none
  xml_path : Option String := none
  xml_url : Option String := none
  storage_type : Option String := none
  summary : Option Json := none
  key_findings : Option Json := none
  data_quality_notes : Option Json := none

/-- Replacement (`re.sub`) of every character outside letters, digits and underscore with
an underscore (line 876). -/
def sanitizeName (s : String) : String :=
  String.mk (s.data.map fun c => if c.isAlphanum || c == '_' then c else '_')

/-- The storage filename (lines 872–877): the caller-supplied path, or a
sanitized slug of the question's first 30 characters plus a timestamp. -/
def storageFilename (question : String) (storage_path : Option String)
    (timestamp : String) : String :=
  match storage_path with
  | some p => p ++ ".xml"
  | none => sanitizeName (pyTake 30 question) ++ "_" ++ timestamp ++ ".xml"

/-- The pipeline `query(question, database, table_filter, storage_path)` (lines 807–897).
The first component is the run's outcome — `Except.error` for an uncaught
exception, `Except.ok` for a returned payload — and the second lists the SQL
statements passed to `execute_query` during the run. -/
def query (question : String) (env : PipelineEnv)
    (table_filter : Option (List String)) (storage_path : Option String) :
    Except String QueryReturn × List String :=
  let schema := discover_schema env table_filter
  if schema.tables.isEmpty then
    (.error "No tables found in database", [])
  else
    let sql_result := env.gen
    let genFailure : Except String QueryReturn × List String :=
      (.ok { success := false,
             error := some (sql_result.error.getD "Failed to generate SQL"),
             reasoning := some (sql_result.reasoning.getD ""),
             confidence := some (sql_result.confidence.getD "0") }, [])
    match sql_result.sql with
    | none => genFailure
    | some sql =>
      if truthyStr sql_result.error || sql.data.isEmpty then genFailure
      else
        let validation := validate_sql sql schema
        if !validation.valid then
          (.ok { success := false,
                 error := some ("SQL validation failed: "
                   ++ String.intercalate "; " validation.errors),
                 sql := some sql }, [])
        else
          let results := execute_query sql env.backend 10000 env.elapsed_ms
          match summarize_results_parse env.summaryReply with
          | .error _ => (.error "json.JSONDecodeError", [sql])
          | .ok summary =>
            let xml := results_to_xml question sql results summary env.generated_at
            let _ := xml
            let filename := storageFilename question storage_path env.timestamp
            let storage_result := env.storage filename
            (.ok { success := true,
                   sql := some sql,
                   row_count := some results.row_count,
                   columns := some results.columns,
                   xml_path := some storage_result.path,
                   xml_url := some storage_result.url,
                   storage_type := some storage_result.storage_type,
                   summary := some (jsonGetD summary "summary" (.str "")),
                   key_findings := some (jsonGetD summary "key_findings" (.arr [])),
                   data_quality_notes := some (jsonGetD summary "data_quality_notes" (.arr [])),
                   confidence := some (sql_result.confidence.getD "0"),
                   reasoning := some (sql_result.reasoning.getD "") }, [sql])

/-! ## Concrete environments used by witnesses -/

/-- A pipeline environment whose generated SQL is the multi-statement
injection of the spec's scenario. -/
def pipelineEnvA : PipelineEnv :=
  { database := "default", db_type := "postgresql",
    sourceTables := [{ name := "sales", description := "Table sales", columns := [] }],
    gen := { sql := some "SELECT * FROM sales; DROP TABLE sales;",
             reasoning := some "join-free scan", confidence := some "0.9", error := none },
    backend := fun _ => ([], []),
    elapsed_ms := 0,
    summaryReply := "",
    generated_at := "2026-01-01T00:00:00Z",
    timestamp := "20260101_000000",
    storage := fun f => { path := f, url := "file:///" ++ f, storage_type := "local" } }

/-- A pipeline environment with a clean query whose summarizer reply has no
brace-delimited span. -/
def pipelineEnvB : PipelineEnv :=
  { pipelineEnvA with
    gen := { sql := some "SELECT 1 LIMIT 1",
             reasoning := some "constant", confidence := some "1.0", error := none },
    summaryReply := "no json here" }

/-- As `pipelineEnvB`, but the summarizer reply carries a brace span that is
not valid JSON. -/
def pipelineEnvC : PipelineEnv :=
  { pipelineEnvB with summaryReply := "\x7bbad\x7d" }

/-- A concrete two-column result with a `None` cell. -/
def sampleResult : QueryResult :=
  { columns := ["a", "b"],
    rows := [[("a", Value.null), ("b", Value.int 3)]],
    row_count := 1,
    execution_time_ms := 5 }

/-- C2: if the SQL contains a denylisted keyword in any letter case (i.e. the
uppercased text contains the keyword), `validate_sql` is invalid and names that
keyword in `errors`; every violated keyword contributes its own entry, and
`valid` holds exactly when `errors` is empty. -/
theorem validate_sql_denylist (sql : String) (schema : Schema) :
    ((validate_sql sql schema).valid = true ↔ (validate_sql sql schema).errors = []) ∧
    ∀ k ∈ DISALLOWED_KEYWORDS, pyIn k (strUpper sql) = true →
      (validate_sql sql schema).valid = false ∧
      ("Disallowed keyword: " ++ k) ∈ (validate_sql sql schema).errors := by
  have herr : (validate_sql sql schema).errors =
      ((DISALLOWED_KEYWORDS.filterMap fun keyword =>
          if pyIn keyword (strUpper sql) then some ("Disallowed keyword: " ++ keyword) else none)
        ++ (if !(pyStartsWith (strUpper (pyStrip sql)) "SELECT")
              then ["Query must start with SELECT"] else []))
        ++ (if !(pyIn "LIMIT" (strUpper sql))
              then ["Query should include LIMIT clause"] else []) := rfl
  have hvalid : (validate_sql sql schema).valid = (validate_sql sql schema).errors.isEmpty := rfl
  constructor
  · rw [hvalid, List.isEmpty_iff]
  · intro k hk hin
    have hmem0 : ("Disallowed keyword: " ++ k) ∈
        DISALLOWED_KEYWORDS.filterMap fun keyword =>
          if pyIn keyword (strUpper sql) then some ("Disallowed keyword: " ++ keyword)
          else none := by
      refine List.mem_filterMap.mpr ⟨k, hk, ?_⟩
      simp [hin]
    have hmem : ("Disallowed keyword: " ++ k) ∈ (validate_sql sql schema).errors := by
      rw [herr]
      exact List.mem_append_left _ (List.mem_append_left _ hmem0)
    refine ⟨?_, hmem⟩
    rw [hvalid]
    simpa [List.isEmpty_iff] using List.ne_nil_of_mem hmem

/-- Witness for C2 on `"drop table users"` and the keyword `DROP`. -/
theorem validate_sql_denylist_witness :
    (validate_sql "drop table users" exampleSchema).valid = false ∧
    ("Disallowed keyword: DROP") ∈ (validate_sql "drop table users" exampleSchema).errors :=
  (validate_sql_denylist "drop table users" exampleSchema).2 "DROP" (by decide) (by decide)

/-- C9: `validate_sql` is oblivious to its schema argument — identical results
on any two schemas, so referenced table/column names are never checked. -/
theorem validate_sql_schema_independent (sql : String) (s₁ s₂ : Schema) :
    validate_sql sql s₁ = validate_sql sql s₂ := rfl

/-- C10: `"SELECT created_at FROM t LIMIT 5"` is a pure SELECT none of whose
lexical tokens is denylisted, yet `validate_sql` rejects it naming `CREATE`,
because the keyword screen is a raw case-insensitive substring check. -/
theorem validate_sql_substring_false_positive :
    (tokens (strUpper "SELECT created_at FROM t LIMIT 5")).all
        (fun t => !tokenInDenylist t) = true ∧
    pyStartsWith (strUpper (pyStrip "SELECT created_at FROM t LIMIT 5")) "SELECT" = true ∧
    (validate_sql "SELECT created_at FROM t LIMIT 5" exampleSchema).valid = false ∧
    (validate_sql "SELECT created_at FROM t LIMIT 5" exampleSchema).errors
      = ["Disallowed keyword: CREATE"] := by decide

/-- C3: `execute_query`'s result reports `row_count` equal to the number of
rows it returns, and never more than `max_rows`, whatever the backend
sends. -/
theorem execute_query_row_bound (sql : String) (backend : Backend)
    (max_rows : Nat) (t : Int) :
    (execute_query sql backend max_rows t).row_count
        = (execute_query sql backend max_rows t).rows.length ∧
    (execute_query sql backend max_rows t).row_count ≤ max_rows := by
  refine ⟨rfl, ?_⟩
  show (((backend (addLimit sql max_rows)).2.take max_rows).map
      fun row => List.zip (backend (addLimit sql max_rows)).1 row).length ≤ max_rows
  simp [List.length_take]

/-- C4 (amended): the executor's limiting step is a case-insensitive
substring test for `LIMIT`: when the uppercased SQL lacks that substring, a
`LIMIT max_rows` clause is appended after stripping trailing semicolons; when
the substring occurs anywhere — clause or not — the SQL is left unchanged, so
a second clause is never appended to an already-limited statement. -/
theorem addLimit_spec (sql : String) (max_rows : Nat) :
    (pyIn "LIMIT" (strUpper sql) = false →
      addLimit sql max_rows
        = rstripSemicolons sql ++ " LIMIT " ++ toString max_rows) ∧
    (pyIn "LIMIT" (strUpper sql) = true → addLimit sql max_rows = sql) := by
  constructor <;> intro h <;> simp [addLimit, h]

/-- Witness for C4: a clause is appended to an unlimited statement and not to
a limited one. -/
theorem addLimit_spec_witness :
    addLimit "SELECT * FROM t" 10000 = "SELECT * FROM t LIMIT 10000" ∧
    addLimit "SELECT * FROM t LIMIT 5" 10000 = "SELECT * FROM t LIMIT 5" := by
  constructor
  · rw [(addLimit_spec "SELECT * FROM t" 10000).1 (by decide)]; decide
  · exact (addLimit_spec "SELECT * FROM t LIMIT 5" 10000).2 (by decide)

/-- C4 counterexample: `"SELECT speed_limit FROM roads"` has no limiting
clause — no lexical token of it is `LIMIT` — yet nothing is appended, because
the identifier `speed_limit` contains the substring. -/
theorem addLimit_counterexample :
    hasLimitToken "SELECT speed_limit FROM roads" = false ∧
    addLimit "SELECT speed_limit FROM roads" 10000
      = "SELECT speed_limit FROM roads" := by decide

/-- C6 (amended): `generate_sql` parses the reply directly; on failure it
extracts the span from the first opening brace to the last closing brace and
parses that; it raises its parse `ValueError` exactly when the direct parse
fails and no such span exists.  (When the span exists but is itself
unparseable, the JSON decode error propagates instead — see the
counterexample.) -/
theorem generate_sql_parse_spec (content : String) :
    (∀ j, json_loads content = some j → generate_sql_parse content = .ok j) ∧
    (generate_sql_parse content
        = .error (.generationParseError
            ("Could not parse SQL generation response: " ++ pyTake 200 content))
      ↔ json_loads content = none ∧ extractBraceSpan content.data = none) := by
  constructor
  · intro j hj
    simp [generate_sql_parse, hj]
  · cases h1 : json_loads content with
    | some j => simp [generate_sql_parse, h1]
    | none =>
      cases h2 : extractBraceSpan content.data with
      | none => simp [generate_sql_parse, h1, h2]
      | some grp =>
        cases h3 : json_loads (String.mk grp) with
        | some j => simp [generate_sql_parse, h1, h2, h3]
        | none => simp [generate_sql_parse, h1, h2, h3]

/-- Witness for C6: a directly parseable reply is returned as parsed, and a
braceless reply raises the generation parse failure. -/
theorem generate_sql_parse_spec_witness :
    generate_sql_parse "\x7b\"sql\": \"SELECT 1\"\x7d"
      = .ok (Json.obj [("sql", Json.str "SELECT 1")]) ∧
    generate_sql_parse "no object at all"
      = .error (.generationParseError
          ("Could not parse SQL generation response: "
            ++ pyTake 200 "no object at all")) :=
  ⟨(generate_sql_parse_spec "\x7b\"sql\": \"SELECT 1\"\x7d").1 _ rfl,
   (generate_sql_parse_spec "no object at all").2.mpr ⟨rfl, rfl⟩⟩

/-- C6 counterexample: on this reply the first *balanced* brace-delimited
substring parses as a structured object, yet `generate_sql` fails — and with
the propagated JSON decode error rather than its own parse failure — because
the code extracts up to the *last* closing brace. -/
theorem generate_sql_parse_counterexample :
    firstBalancedBrace "x \x7b\"a\": 1\x7d y \x7b\"b\": 2\x7d"
      = some "\x7b\"a\": 1\x7d" ∧
    json_loads "\x7b\"a\": 1\x7d" = some (Json.obj [("a", Json.num "1")]) ∧
    generate_sql_parse "x \x7b\"a\": 1\x7d y \x7b\"b\": 2\x7d"
      = .error .jsonDecodeError :=
  ⟨rfl, rfl, rfl⟩

/-- C5 (amended): when the summarizer's reply fails direct parsing and
contains no opening-to-closing-brace span, `summarize_results` returns the
fixed fallback (`summary = "Query executed successfully"`, empty lists)
rather than raising, and the pipeline still reports overall success.  (When a
span exists but fails to parse, the decode error propagates instead — see the
counterexample.) -/
theorem summarize_fallback_pipeline_success (question : String)
    (env : PipelineEnv) (tf : Option (List String)) (sp : Option String)
    (sql : String)
    (htab : (discover_schema env tf).tables ≠ [])
    (hsql : env.gen.sql = some sql)
    (herr : truthyStr env.gen.error = false)
    (hne : sql.data.isEmpty = false)
    (hval : (validate_sql sql (discover_schema env tf)).valid = true)
    (hparse : json_loads env.summaryReply = none)
    (hspan : extractBraceSpan env.summaryReply.data = none) :
    summarize_results_parse env.summaryReply = .ok fallbackSummary ∧
    ∃ r, (query question env tf sp).1 = .ok r ∧ r.success = true ∧
      r.summary = some (Json.str "Query executed successfully") := by
  have hsum : summarize_results_parse env.summaryReply = .ok fallbackSummary := by
    simp [summarize_results_parse, hparse, hspan]
  have hemp : (discover_schema env tf).tables.isEmpty = false := by
    simpa [List.isEmpty_iff] using htab
  have hq : (query question env tf sp).1
      = .ok { success := true,
              sql := some sql,
              row_count := some (execute_query sql env.backend 10000 env.elapsed_ms).row_count,
              columns := some (execute_query sql env.backend 10000 env.elapsed_ms).columns,
              xml_path := some (env.storage (storageFilename question sp env.timestamp)).path,
              xml_url := some (env.storage (storageFilename question sp env.timestamp)).url,
              storage_type :=
                some (env.storage (storageFilename question sp env.timestamp)).storage_type,
              summary := some (jsonGetD fallbackSummary "summary" (.str "")),
              key_findings := some (jsonGetD fallbackSummary "key_findings" (.arr [])),
              data_quality_notes :=
                some (jsonGetD fallbackSummary "data_quality_notes" (.arr [])),
              confidence := some (env.gen.confidence.getD "0"),
              reasoning := some (env.gen.reasoning.getD "") } := by
    simp [query, hemp, hsql, herr, hne, hval, hsum]
  exact ⟨hsum, _, hq, rfl, rfl⟩

/-- Witness for C5: a braceless summarizer reply yields the fallback and the
run still succeeds. -/
theorem summarize_fallback_pipeline_success_witness :
    summarize_results_parse "no json here" = .ok fallbackSummary ∧
    ∃ r, (query "q" pipelineEnvB none none).1 = .ok r ∧ r.success = true ∧
      r.summary = some (Json.str "Query executed successfully") :=
  summarize_fallback_pipeline_success "q" pipelineEnvB none none
    "SELECT 1 LIMIT 1" (by decide) rfl (by decide) (by decide) (by decide) rfl rfl

/-- C5 counterexample: the reply `"\x7bbad\x7d"` cannot be parsed as
structured data by either step, yet `summarize_results` does not return the
fallback: the decode error for the extracted span propagates, and the
pipeline run that receives this reply fails rather than reporting success. -/
theorem summarize_fallback_counterexample :
    json_loads "\x7bbad\x7d" = none ∧
    summarize_results_parse "\x7bbad\x7d" = .error .jsonDecodeError ∧
    (query "q" pipelineEnvC none none).1 = .error "json.JSONDecodeError" :=
  ⟨rfl, rfl, rfl⟩

/-- C1: whenever the generated SQL fails validation, the pipeline neither
invokes `execute_query` (the executed-statement trace is empty) nor
proceeds: it returns the validation-failure payload with `success = false`. -/
theorem query_aborts_on_invalid_sql (question : String) (env : PipelineEnv)
    (tf : Option (List String)) (sp : Option String) (sql : String)
    (htab : (discover_schema env tf).tables ≠ [])
    (hsql : env.gen.sql = some sql)
    (herr : truthyStr env.gen.error = false)
    (hne : sql.data.isEmpty = false)
    (hval : (validate_sql sql (discover_schema env tf)).valid = false) :
    query question env tf sp
      = (.ok { success := false,
               error := some ("SQL validation failed: " ++ String.intercalate "; "
                 (validate_sql sql (discover_schema env tf)).errors),
               sql := some sql }, []) := by
  have hemp : (discover_schema env tf).tables.isEmpty = false := by
    simpa [List.isEmpty_iff] using htab
  simp [query, hemp, hsql, herr, hne, hval]

/-- Witness for C1 on the spec's scenario: the generated SQL
`"SELECT * FROM sales; DROP TABLE sales;"` is rejected with an error naming
`DROP`, no statement is executed, and the run reports failure. -/
theorem query_aborts_on_invalid_sql_witness :
    "Disallowed keyword: DROP" ∈
      (validate_sql "SELECT * FROM sales; DROP TABLE sales;"
        (discover_schema pipelineEnvA none)).errors ∧
    query "total sales" pipelineEnvA none none
      = (.ok { success := false,
               error := some ("SQL validation failed: " ++ String.intercalate "; "
                 (validate_sql "SELECT * FROM sales; DROP TABLE sales;"
                   (discover_schema pipelineEnvA none)).errors),
               sql := some "SELECT * FROM sales; DROP TABLE sales;" }, []) :=
  ⟨by decide,
   query_aborts_on_invalid_sql "total sales" pipelineEnvA none none
     "SELECT * FROM sales; DROP TABLE sales;"
     (by decide) rfl (by decide) (by decide) (by decide)⟩

/-- C7: a run whose filtered schema has zero tables aborts with the no-tables
error before any model call or execution (empty trace), while filter names
missing from the source are silently dropped: a non-empty filter plainly
restricts the source's table list to the named subset. -/
theorem discover_empty_aborts (question : String) (env : PipelineEnv)
    (tf : Option (List String)) (sp : Option String)
    (h : (discover_schema env tf).tables = []) :
    query question env tf sp = (.error "No tables found in database", []) ∧
    ∀ fs : List String, fs ≠ [] →
      (discover_schema env (some fs)).tables
        = env.sourceTables.filter fun t => fs.contains t.name := by
  constructor
  · have hemp : (discover_schema env tf).tables.isEmpty = true := by simp [h]
    simp [query, hemp]
  · intro fs hfs
    cases fs with
    | nil => exact absurd rfl hfs
    | cons f rest => rfl

/-- Witness for C7: filtering on a name the source lacks empties the schema
and aborts the run; a filter mixing present and absent names keeps exactly
the present ones. -/
theorem discover_empty_aborts_witness :
    query "q" pipelineEnvA (some ["nonexistent"]) none
      = (.error "No tables found in database", []) ∧
    (discover_schema pipelineEnvA (some ["sales", "nonexistent"])).tables
      = [{ name := "sales", description := "Table sales", columns := [] }] := by
  refine ⟨(discover_empty_aborts "q" pipelineEnvA (some ["nonexistent"]) none
    (by decide)).1, ?_⟩
  rw [(discover_empty_aborts "q" pipelineEnvA (some ["nonexistent"]) none
    (by decide)).2 ["sales", "nonexistent"] (by decide)]
  decide

/-- C8: exporting any `QueryResult` (under its `row_count` invariant) and
reading the document back recovers exactly the original column list, a number
of row elements equal to `row_count`, and one child element per column inside
every row element — with `None` cells rendered as empty text content, never
omitted. -/
theorem results_to_xml_roundtrip (question sql generated_at : String)
    (r : QueryResult) (summary : Json)
    (hinv : r.row_count = r.rows.length) :
    xmlColumnNames (results_to_xml question sql r summary generated_at)
      = r.columns ∧
    (xmlRowElems (results_to_xml question sql r summary generated_at)).length
      = r.row_count ∧
    xmlRowElems (results_to_xml question sql r summary generated_at)
      = r.rows.map (rowToElem r.columns) ∧
    ∀ row : List (String × Value), ∀ col : String,
      ((row.find? fun kv => kv.1 == col).map (·.2)).getD (.str "") = Value.null →
      rowValText row col = "" := by
  have hcols : ∀ cols : List String,
      (cols.map fun col =>
          XmlElem.mk "column" [("name", col), ("type", "string")] none []).filterMap
        (fun c => (c.attrs.find? fun a => a.1 == "name").map (·.2)) = cols := by
    intro cols
    induction cols with
    | nil => rfl
    | cons c cs ih => exact congrArg (List.cons c) ih
  refine ⟨?_, ?_, rfl, ?_⟩
  · show (r.columns.map fun col =>
        XmlElem.mk "column" [("name", col), ("type", "string")] none []).filterMap
      (fun c => (c.attrs.find? fun a => a.1 == "name").map (·.2)) = r.columns
    exact hcols r.columns
  · show (r.rows.map (rowToElem r.columns)).length = r.row_count
    simp [hinv]
  · intro row col h
    simp [rowValText, pyStr, h]

/-- Witness for C8 on a result holding a `None` cell. -/
theorem results_to_xml_roundtrip_witness :
    xmlColumnNames (results_to_xml "q" "SELECT a, b FROM t LIMIT 1" sampleResult
        fallbackSummary "2026-01-01T00:00:00Z") = ["a", "b"] ∧
    (xmlRowElems (results_to_xml "q" "SELECT a, b FROM t LIMIT 1" sampleResult
        fallbackSummary "2026-01-01T00:00:00Z")).length = 1 ∧
    rowValText [("a", Value.null), ("b", Value.int 3)] "a" = "" :=
  ⟨(results_to_xml_roundtrip "q" "SELECT a, b FROM t LIMIT 1" "2026-01-01T00:00:00Z"
      sampleResult fallbackSummary (by decide)).1,
   (results_to_xml_roundtrip "q" "SELECT a, b FROM t LIMIT 1" "2026-01-01T00:00:00Z"
      sampleResult fallbackSummary (by decide)).2.1,
   (results_to_xml_roundtrip "q" "SELECT a, b FROM t LIMIT 1" "2026-01-01T00:00:00Z"
      sampleResult fallbackSummary (by decide)).2.2.2
     [("a", Value.null), ("b", Value.int 3)] "a" rfl⟩

end QueryAgent
